import Mathlib

/-!
Verification development for the bid service (vinasLT/bid_service).

The definitions below are a shallow embedding of the bid lifecycle code:
  * `app/schemas/bid_enums.py`        — the status enums;
  * `app/database/crud/bid.py`        — the `BidService` persistence operations;
  * `app/routers/v1/bid/admin.py`     — the outcome-workflow route handlers
    (`mark_bid_as_on_approval`, `mark_bid_as_won`, `approve_bid`,
     `mark_bid_as_lost`, `decline_bid`, `mark_payment_as_paid`);
  * `app/routers/v1/bid/user.py`      — the placement workflow (`bid_on_auction`).

The database is modelled as the single row the workflow under scrutiny addresses
(`Db := Option Bid`); remote collaborators (funds ledger, identity provider,
message bus) are modelled by environment records that prescribe the outcome of
each remote call, and the externally visible side effects (ledger transactions,
published messages, contact fetches) are collected in an explicit effect record.
Python exceptions are modelled by `Except`/error results carrying the exception
message; `BadRequestProblem(detail=...)` becomes `Problem.badRequest detail`.

Two pieces of the repository are referenced by the routers but absent from the
snapshot: the SQLAlchemy `Bid` model module (`app/database/models.py`, which
couples `payment_status`/`account_blocked` to status changes) and the generic
`BaseService` (`app/database/crud/base.py`, providing `get`/`create`/`update`).
Definitions covering those parts are modelled from the spec and are marked with
a doc comment starting `Modelled from the spec:`.
-/

/-- From `app/schemas/bid_enums.py`: `Auctions`. -/
inductive Auctions
  | copart
  | iaai
deriving Repr, DecidableEq

/-- From `app/schemas/bid_enums.py`: `BidStatus`. -/
inductive BidStatus
  | waitingAuctionResult
  | onApproval
  | won
  | lost
deriving Repr, DecidableEq

/-- From `app/schemas/bid_enums.py`: `PaymentStatus`. -/
inductive PaymentStatus
  | notRequired
  | pending
  | paid
deriving Repr, DecidableEq

/-- The persisted bid row (`bid` table; fields as in `BidBase`/`BidRead` of
`app/database/schemas/bid.py`).  Lot-snapshot fields that no workflow ever
reads back (odometer, location, damage codes, fuel, transmission, engine size,
cylinders, seller, document, status) are omitted; the ones consumed by the
notification payload builder (title, images, auction date, VIN) are kept.
`auctionDate` is kept in already-serialized (ISO string) form, since the code
only ever passes it through `_serialize_datetime`.  `updatedAt` models the
row's update timestamp, refreshed on every persisted write. -/
structure Bid where
  id : Nat
  lotId : Nat
  auction : Auctions
  userUuid : String
  bidAmount : Int
  bidStatus : BidStatus
  paymentStatus : PaymentStatus
  accountBlocked : Bool
  isBuyNow : Bool
  auctionResultBid : Option Int
  title : Option String
  auctionDate : Option String
  vin : Option String
  images : Option String
  updatedAt : Nat
deriving Repr, DecidableEq

/-- The database, restricted to the single row addressed by the workflow call
(`bid_service.get(bid_id)` either finds this row or nothing). -/
abbrev Db := Option Bid

/-- A gRPC error (`grpc.aio.AioRpcError`): status-code name and detail message,
as read by `raise_rpc_problem` in `app/core/utils.py`. -/
structure RpcErr where
  code : String
  msg : String
deriving Repr, DecidableEq

/-- Typed errors surfaced by a route handler.  `badRequest` is
`rfc9457.BadRequestProblem(detail=...)`; `unhandled` is an exception that the
handler does not catch (it escapes to the framework). -/
inductive Problem
  | badRequest (detail : String)
  | unhandled (msg : String)
deriving Repr, DecidableEq

/-- From `app/core/utils.py`, `raise_rpc_problem`: wraps a collaborator failure
into a `BadRequestProblem` whose detail names the service and the gRPC code. -/
def raiseRpcProblem (serviceName : String) (exc : RpcErr) : Problem :=
  Problem.badRequest (serviceName ++ " service error (" ++ exc.code ++ "): " ++ exc.msg)

/-- A funds-ledger transaction type (`stripe_pb2.TransactionType`), restricted
to the two values the bid service uses. -/
inductive TxType
  | bidPlacement
  | adjustment
deriving Repr, DecidableEq

/-- A successfully acknowledged `create_transaction` call on the funds ledger. -/
structure Tx where
  userUuid : String
  txType : TxType
  amount : Int
deriving Repr, DecidableEq

/-- Contact info returned by the identity provider
(`AuthRcp.get_user`, read by `_get_user_contacts` in `admin.py`). -/
structure Contacts where
  email : Option String
  phoneNumber : Option String
deriving Repr, DecidableEq

/-- The outbound notification payload shape built by
`_build_bid_notification_payload` in `admin.py`.  `destination` and
`refundedAmount` model the keys the handlers add to the dict afterwards. -/
structure Payload where
  userUuid : String
  bidId : Nat
  lotId : Nat
  auction : Auctions
  bidAmount : Int
  finalBid : Option Int
  vehicleTitle : Option String
  vehicleImage : Option String
  auctionDate : Option String
  vin : Option String
  bidStatus : BidStatus
  paymentStatus : PaymentStatus
  accountBlocked : Bool
  email : Option String
  phoneNumber : Option String
  refundedAmount : Option Int := none
  destination : Option String := none
deriving Repr, DecidableEq

/-- From `admin.py`, `_extract_primary_image`: `None` for a missing/empty list,
otherwise the first comma-separated entry, stripped, with `""` mapped to `None`. -/
def extractPrimaryImage (images : Option String) : Option String :=
  match images with
  | none => none
  | some s =>
    if s = "" then none
    else
      let firstImage := ((s.splitOn ",").headD "").trim
      if firstImage = "" then none else some firstImage

/-- From `admin.py`, `_build_bid_notification_payload`. -/
def buildBidNotificationPayload (bid : Bid) (email phoneNumber : Option String) : Payload :=
  { userUuid := bid.userUuid
    bidId := bid.id
    lotId := bid.lotId
    auction := bid.auction
    bidAmount := bid.bidAmount
    finalBid := bid.auctionResultBid
    vehicleTitle := bid.title
    vehicleImage := extractPrimaryImage bid.images
    auctionDate := bid.auctionDate
    vin := bid.vin
    bidStatus := bid.bidStatus
    paymentStatus := bid.paymentStatus
    accountBlocked := bid.accountBlocked
    email := email
    phoneNumber := phoneNumber }

/-- The snapshot of the four mutable lifecycle fields that the route handlers
capture before a transition and pass to `bid_service.update` on compensation
(`BidUpdate(bid_status=..., auction_result_bid=..., payment_status=...,
account_blocked=...)` in `admin.py`). -/
structure BidSnapshot where
  bidStatus : BidStatus
  auctionResultBid : Option Int
  paymentStatus : PaymentStatus
  accountBlocked : Bool
deriving Repr, DecidableEq

/-- The snapshot taken by a route handler before mutating a bid. -/
def snapshotOf (b : Bid) : BidSnapshot :=
  { bidStatus := b.bidStatus
    auctionResultBid := b.auctionResultBid
    paymentStatus := b.paymentStatus
    accountBlocked := b.accountBlocked }

/-- Modelled from the spec: `BaseService.update` (`app/database/crud/base.py`
is absent from the snapshot) applied to the compensation `BidUpdate` — per
§4.3 the revert write restores exactly the snapshotted field values
(`bidStatus`, `paymentStatus`, `accountBlocked`, `auctionResultBid`); the
write refreshes `updatedAt`. -/
def applySnapshot (b : Bid) (snap : BidSnapshot) (now : Nat) : Bid :=
  { b with
    bidStatus := snap.bidStatus
    auctionResultBid := snap.auctionResultBid
    paymentStatus := snap.paymentStatus
    accountBlocked := snap.accountBlocked
    updatedAt := now }

/-- The compensation revert write on the database row
(`bid_service.update(bid_id, BidUpdate(...))`). -/
def revertDb (db : Db) (snap : BidSnapshot) (now : Nat) : Db :=
  match db with
  | none => none
  | some b => some (applySnapshot b snap now)

/-- From `BidService.mark_bid_as_won` (`app/database/crud/bid.py`): the new
`auction_result_bid` overwrites the stored one only when a value was provided. -/
def overrideResult (stored : Option Int) (provided : Option Int) : Option Int :=
  match provided with
  | some v => some v
  | none => stored

/-- From `BidService.mark_bid_as_won` (`app/database/crud/bid.py`): sets
`bid_status = WON` and overwrites `auction_result_bid` when provided; the
commit refreshes `updatedAt`.  The coupled `paymentStatus`/`accountBlocked`
updates are the responsibility of the bid model layer, absent from the
snapshot — see below — so this part is modelled from the spec:
§4.2 `markWon` additionally sets `paymentStatus = PENDING` when it was
`NOT_REQUIRED` and sets `accountBlocked = true`. -/
def markBidAsWonService (b : Bid) (auctionResultBid : Option Int) (now : Nat) : Bid :=
  { b with
    bidStatus := BidStatus.won
    auctionResultBid := overrideResult b.auctionResultBid auctionResultBid
    paymentStatus := if b.paymentStatus = PaymentStatus.notRequired
                     then PaymentStatus.pending else b.paymentStatus
    accountBlocked := true
    updatedAt := now }

/-- From `BidService.mark_bid_as_lost` (`app/database/crud/bid.py`): sets
`bid_status = LOST` and overwrites `auction_result_bid` when provided; the
commit refreshes `updatedAt`.  The coupled `accountBlocked` update is
modelled from the spec: §4.2 `markLost` sets `accountBlocked = false`. -/
def markBidAsLostService (b : Bid) (auctionResultBid : Option Int) (now : Nat) : Bid :=
  { b with
    bidStatus := BidStatus.lost
    auctionResultBid := overrideResult b.auctionResultBid auctionResultBid
    accountBlocked := false
    updatedAt := now }

/-- Modelled from the spec: `BidService.mark_bid_as_on_approval` is called by
the router but absent from the snapshot's `crud/bid.py`; per §4.2
`placeOnApproval` sets `bidStatus = ON_APPROVAL`, `accountBlocked = true`,
and `auctionResultBid` when provided. -/
def markBidAsOnApprovalService (b : Bid) (auctionResultBid : Option Int) (now : Nat) : Bid :=
  { b with
    bidStatus := BidStatus.onApproval
    auctionResultBid := overrideResult b.auctionResultBid auctionResultBid
    accountBlocked := true
    updatedAt := now }

/-- Modelled from the spec: `BidService.mark_payment_as_paid` is called by the
router but absent from the snapshot's `crud/bid.py`; per §4.2 `markPaid` sets
`paymentStatus = PAID` and `accountBlocked = false`. -/
def markPaymentAsPaidService (b : Bid) (now : Nat) : Bid :=
  { b with
    paymentStatus := PaymentStatus.paid
    accountBlocked := false
    updatedAt := now }

/-- Outcome of the publisher block (`publisher.connect()` followed by two
`publisher.publish` calls sharing one payload dict): either everything
succeeds, or `connect` raises, or the first publish raises, or the second
publish raises after the first was delivered.  The carried string is the
exception text interpolated into the error detail. -/
inductive PublishOutcome
  | ok
  | connectFail (msg : String)
  | firstFail (msg : String)
  | secondFail (msg : String)
deriving Repr, DecidableEq

/-- Runs the two-destination publish block of `admin.py`: the same payload
object is published under `routingKey` with `destination = 'email'` and then
republished with `destination = 'sms'`.  Returns the delivered messages and
the exception message when the block raised. -/
def runPublishes (routingKey : String) (payload : Payload) :
    PublishOutcome → List (String × Payload) × Option String
  | PublishOutcome.ok =>
      ([(routingKey, { payload with destination := some "email" }),
        (routingKey, { payload with destination := some "sms" })], none)
  | PublishOutcome.connectFail m => ([], some m)
  | PublishOutcome.firstFail m => ([], some m)
  | PublishOutcome.secondFail m =>
      ([(routingKey, { payload with destination := some "email" })], some m)

/-- Externally visible side effects of one outcome-workflow call. -/
structure Effects where
  txs : List Tx := []
  published : List (String × Payload) := []
  contactFetches : Nat := 0
deriving Repr, DecidableEq

deriving instance DecidableEq for Except

/-- Result of one outcome-workflow route handler: the database row afterwards,
the HTTP-level result (returned bid or raised problem), and the side effects. -/
structure RouteResult where
  db : Db
  result : Except Problem Bid
  effects : Effects
deriving Repr, DecidableEq

/-- Environment for `mark_bid_as_won` / `approve_bid`: the identity-provider
call outcome and the publisher block outcome. -/
structure WonEnv where
  auth : Except RpcErr Contacts
  pub : PublishOutcome
deriving Repr, DecidableEq

/-- Environment for `mark_bid_as_lost` / `decline_bid`: the funds-ledger
`create_transaction` outcome, the identity-provider call outcome, and the
publisher block outcome. -/
structure LostEnv where
  account : Except RpcErr Unit
  auth : Except RpcErr Contacts
  pub : PublishOutcome
deriving Repr, DecidableEq

/-- From `admin.py`, `mark_bid_as_won`: reject a missing bid and a bid already
`WON`; snapshot the four lifecycle fields; apply the service transition; fetch
the user's contacts (an identity failure surfaces an `Auth` rpc problem with
no compensation); publish `bid.you_won_bid` twice on one payload (email, then
sms); on any publisher exception revert the bid to the snapshot and surface
`"Failed to send notification: ..."`. -/
def markBidAsWonRoute (db : Db) (winAuctionResultBid : Option Int) (env : WonEnv) (now : Nat) :
    RouteResult :=
  match db with
  | none => { db := db, result := Except.error (Problem.badRequest "Bid not found"), effects := {} }
  | some existingBid =>
    if existingBid.bidStatus = BidStatus.won then
      { db := db
        result := Except.error (Problem.badRequest "Bid already marked as won")
        effects := {} }
    else
      let prev := snapshotOf existingBid
      let bid := markBidAsWonService existingBid winAuctionResultBid now
      let db1 : Db := some bid
      match env.auth with
      | Except.error exc =>
        { db := db1
          result := Except.error (raiseRpcProblem "Auth" exc)
          effects := { contactFetches := 1 } }
      | Except.ok contacts =>
        let payload := buildBidNotificationPayload bid contacts.email contacts.phoneNumber
        let pubRun := runPublishes "bid.you_won_bid" payload env.pub
        match pubRun.2 with
        | none =>
          { db := db1
            result := Except.ok bid
            effects := { published := pubRun.1, contactFetches := 1 } }
        | some m =>
          { db := revertDb db1 prev now
            result := Except.error (Problem.badRequest ("Failed to send notification: " ++ m))
            effects := { published := pubRun.1, contactFetches := 1 } }

/-- From `admin.py`, `approve_bid`: reject a missing bid and a bid not
`ON_APPROVAL`, then delegate to `mark_bid_as_won`. -/
def approveBidRoute (db : Db) (winAuctionResultBid : Option Int) (env : WonEnv) (now : Nat) :
    RouteResult :=
  match db with
  | none => { db := db, result := Except.error (Problem.badRequest "Bid not found"), effects := {} }
  | some existingBid =>
    if existingBid.bidStatus ≠ BidStatus.onApproval then
      { db := db
        result := Except.error (Problem.badRequest "Bid is not awaiting seller approval")
        effects := {} }
    else
      markBidAsWonRoute db winAuctionResultBid env now

/-- The contact-fetch / payload-build / publish tail of `mark_bid_as_lost`
(everything after the refund step).  On a publisher exception no revert is
issued; the error detail distinguishes whether a refund was processed. -/
def lostNotifyStage (db1 : Db) (bid : Bid) (refundRequired : Bool) (txs : List Tx)
    (auth : Except RpcErr Contacts) (pub : PublishOutcome) : RouteResult :=
  match auth with
  | Except.error exc =>
    { db := db1
      result := Except.error (raiseRpcProblem "Auth" exc)
      effects := { txs := txs, contactFetches := 1 } }
  | Except.ok contacts =>
    let basePayload := buildBidNotificationPayload bid contacts.email contacts.phoneNumber
    let payload := if refundRequired
                   then { basePayload with refundedAmount := some bid.bidAmount }
                   else basePayload
    let pubRun := runPublishes "bid.you_lost_bid" payload pub
    match pubRun.2 with
    | none =>
      { db := db1
        result := Except.ok bid
        effects := { txs := txs, published := pubRun.1, contactFetches := 1 } }
    | some m =>
      if refundRequired then
        { db := db1
          result := Except.error (Problem.badRequest
            ("Failed to send notification after refund was processed: " ++ m))
          effects := { txs := txs, published := pubRun.1, contactFetches := 1 } }
      else
        { db := db1
          result := Except.error (Problem.badRequest ("Failed to send notification: " ++ m))
          effects := { txs := txs, published := pubRun.1, contactFetches := 1 } }

/-- From `admin.py`, `mark_bid_as_lost`: reject a missing bid and a `WON` bid;
`refund_required = (status != LOST)`; snapshot; persist the `markLost`
transition only when a refund is required or a new `auction_result_bid` was
supplied; when a refund is required, credit `bid_amount` on the funds ledger
(on ledger failure revert to the snapshot and surface the `Account` rpc
problem); fetch contacts; publish `bid.you_lost_bid` twice on one payload
(with `refunded_amount` iff a refund was required); on a publisher exception
never revert, and surface the refund-aware error detail. -/
def markBidAsLostRoute (db : Db) (lossAuctionResultBid : Option Int) (env : LostEnv) (now : Nat) :
    RouteResult :=
  match db with
  | none => { db := db, result := Except.error (Problem.badRequest "Bid not found"), effects := {} }
  | some existingBid =>
    if existingBid.bidStatus = BidStatus.won then
      { db := db
        result := Except.error (Problem.badRequest "Won bids cannot be marked as lost")
        effects := {} }
    else
      let refundRequired : Bool := decide (existingBid.bidStatus ≠ BidStatus.lost)
      let prev := snapshotOf existingBid
      let stepped : Db × Bid :=
        if refundRequired || lossAuctionResultBid.isSome then
          let bid := markBidAsLostService existingBid lossAuctionResultBid now
          (some bid, bid)
        else (db, existingBid)
      let db1 := stepped.1
      let bid := stepped.2
      if refundRequired then
        match env.account with
        | Except.error exc =>
          { db := revertDb db1 prev now
            result := Except.error (raiseRpcProblem "Account" exc)
            effects := {} }
        | Except.ok _ =>
          lostNotifyStage db1 bid true
            [{ userUuid := bid.userUuid, txType := TxType.adjustment, amount := bid.bidAmount }]
            env.auth env.pub
      else
        lostNotifyStage db1 bid false [] env.auth env.pub

/-- From `admin.py`, `decline_bid`: reject a missing bid and a bid not
`ON_APPROVAL`, then delegate to `mark_bid_as_lost`. -/
def declineBidRoute (db : Db) (lossAuctionResultBid : Option Int) (env : LostEnv) (now : Nat) :
    RouteResult :=
  match db with
  | none => { db := db, result := Except.error (Problem.badRequest "Bid not found"), effects := {} }
  | some existingBid =>
    if existingBid.bidStatus ≠ BidStatus.onApproval then
      { db := db
        result := Except.error (Problem.badRequest "Bid is not awaiting seller approval")
        effects := {} }
    else
      markBidAsLostRoute db lossAuctionResultBid env now

/-- From `admin.py`, `mark_bid_as_on_approval`: reject a missing bid and a bid
in `WON`, `LOST` or `ON_APPROVAL`; apply the on-approval transition; no
external side effect. -/
def markBidAsOnApprovalRoute (db : Db) (auctionResultBid : Option Int) (now : Nat) :
    RouteResult :=
  match db with
  | none => { db := db, result := Except.error (Problem.badRequest "Bid not found"), effects := {} }
  | some existingBid =>
    if existingBid.bidStatus = BidStatus.won ∨ existingBid.bidStatus = BidStatus.lost ∨
       existingBid.bidStatus = BidStatus.onApproval then
      { db := db
        result := Except.error (Problem.badRequest "Bid cannot be set to approval in current state")
        effects := {} }
    else
      let bid := markBidAsOnApprovalService existingBid auctionResultBid now
      { db := some bid, result := Except.ok bid, effects := {} }

/-- From `admin.py`, `mark_payment_as_paid`: reject a missing bid, a bid not
`WON`, and a bid already `PAID`; apply the paid transition; no external side
effect. -/
def markPaymentAsPaidRoute (db : Db) (now : Nat) : RouteResult :=
  match db with
  | none => { db := db, result := Except.error (Problem.badRequest "Bid not found"), effects := {} }
  | some existingBid =>
    if existingBid.bidStatus ≠ BidStatus.won then
      { db := db
        result := Except.error (Problem.badRequest "Only won bids can be marked as paid")
        effects := {} }
    else if existingBid.paymentStatus = PaymentStatus.paid then
      { db := db
        result := Except.error (Problem.badRequest "Payment already marked as paid")
        effects := {} }
    else
      let bid := markPaymentAsPaidService existingBid now
      { db := some bid, result := Except.ok bid, effects := {} }

/-- From `app/schemas/bid.py`: the placement request body `BidIn`. -/
structure BidIn where
  lotId : Nat
  auction : Auctions
  bidAmount : Int
deriving Repr, DecidableEq

/-- The lot data returned by the auction-data provider, restricted to the
fields `bid_on_auction` reads (`form_get_type`, the image lists, and the
snapshot fields the created bid keeps).  The remaining informational snapshot
fields (odometer, location, damage codes, ...) are carried verbatim into the
record and read by nothing in the embedded claims, so they are omitted. -/
structure LotData where
  formGetType : String
  linkImgHd : List String
  linkImgSmall : List String
  title : Option String
  auctionDate : Option String
  vin : Option String
deriving Repr, DecidableEq

/-- From `user.py`, `_collect_lot_images`: the HD image list, falling back to
the small one, comma-joined; `None` when both are empty. -/
def collectLotImages (lot : LotData) : Option String :=
  let images := if lot.linkImgHd.isEmpty then lot.linkImgSmall else lot.linkImgHd
  if images.isEmpty then none else some (String.intercalate "," images)

/-- The funds-account record returned by `get_account_info`.  Only `balance`
is read by the snapshot's `bid_on_auction`; the `blocked` flag and plan
(carrying the per-time bid limit) are part of the collaborator contract (§6)
and are included to express what the code does NOT check. -/
structure PlanInfo where
  maxBidOneTime : Nat
deriving Repr, DecidableEq

/-- See `PlanInfo`. -/
structure AccountInfo where
  balance : Int
  blocked : Bool
  plan : Option PlanInfo
deriving Repr, DecidableEq

/-- The outbound `bid.new_bid_placed` payload built inline in `bid_on_auction`. -/
structure PlacedPayload where
  userUuid : String
  bidAmount : Int
  auctionData : Option String
  vehicleTitle : Option String
  vehicleImage : Option String
  auction : Auctions
  lotId : Nat
  currentBid : Int
deriving Repr, DecidableEq

/-- Environment for `bid_on_auction`: outcomes of the auction-data calls, the
funds-account read, the repository admission reads, the debit transaction and
the publish.  `activeBidsCount` is the user's concurrent active-bid count per
the §4.1 repository contract; the snapshot's `bid_on_auction` never requests
it. -/
structure PlacementEnv where
  lotResult : Except RpcErr (List LotData)
  currentBidResult : Except RpcErr Int
  accountResult : Except RpcErr AccountInfo
  highestBid : Option Bid
  previousBid : Option Bid
  txResult : Except RpcErr Unit
  publishFail : Option String
  activeBidsCount : Nat
deriving Repr, DecidableEq

/-- Result of `bid_on_auction`: the created row (if any), the HTTP-level
result (the handler returns no body on success), and the side effects. -/
structure PlacementResult where
  created : Option Bid
  result : Except Problem Unit
  txs : List Tx
  published : List (String × PlacedPayload)
deriving Repr, DecidableEq

/-- The bid record persisted by `bid_service.create(BidCreate(...))` in
`bid_on_auction`: request fields plus the lot snapshot, with the `BidBase`
defaults `bid_status = WAITING_AUCTION_RESULT`, `payment_status =
NOT_REQUIRED`, `account_blocked = false`, `is_buy_now = false`,
`auction_result_bid = None`. -/
def mkPlacedBid (newId : Nat) (data : BidIn) (userUuid : String) (lot : LotData) (now : Nat) :
    Bid :=
  { id := newId
    lotId := data.lotId
    auction := data.auction
    userUuid := userUuid
    bidAmount := data.bidAmount
    bidStatus := BidStatus.waitingAuctionResult
    paymentStatus := PaymentStatus.notRequired
    accountBlocked := false
    isBuyNow := false
    auctionResultBid := none
    title := lot.title
    auctionDate := lot.auctionDate
    vin := lot.vin
    images := collectLotImages lot
    updatedAt := now }

/-- From `user.py`, the notification payload built after a successful
placement (`vehicle_image` is the raw first comma-separated entry, without
stripping). -/
def mkPlacedPayload (data : BidIn) (userUuid : String) (bid : Bid) (lot : LotData)
    (currentBidAmount : Int) : PlacedPayload :=
  { userUuid := userUuid
    bidAmount := bid.bidAmount
    auctionData := lot.auctionDate
    vehicleTitle := lot.title
    vehicleImage := match collectLotImages lot with
                    | none => none
                    | some s => some ((s.splitOn ",").headD "")
    auction := data.auction
    lotId := data.lotId
    currentBid := currentBidAmount }

/-- The truthiness test `if stored_bid and stored_bid.bid_amount >= amount`
used twice in `bid_on_auction` for the admission reads. -/
def storedBidAtLeast (stored : Option Bid) (amount : Int) : Bool :=
  match stored with
  | some b => decide (b.bidAmount ≥ amount)
  | none => false

/-- From `user.py`, `bid_on_auction` (the snapshot's placement workflow):
fetch the lot (`Lot not found` when the list is empty, `Auction is closed`
when `form_get_type == 'history'`); fetch the current pre-bid and reject when
it is truthy and above the offer; fetch the funds account and reject only on
`balance < amount` (`Not enough money` — the snapshot performs no
blocked/plan/limit admission checks); reject when the lot's highest stored
bid or the user's own previous bid is at least the offer; create the record;
debit `amount` as a `BID_PLACEMENT` transaction (a ledger failure after
creation surfaces an `Account` rpc problem but leaves the created record);
publish `bid.new_bid_placed` once (a publish failure escapes unhandled). -/
def bidOnAuction (data : BidIn) (userUuid : String) (env : PlacementEnv)
    (newId : Nat) (now : Nat) : PlacementResult :=
  match env.lotResult with
  | Except.error exc =>
    { created := none, result := Except.error (raiseRpcProblem "Auction" exc)
      txs := [], published := [] }
  | Except.ok lots =>
    match lots.head? with
    | none =>
      { created := none, result := Except.error (Problem.badRequest "Lot not found")
        txs := [], published := [] }
    | some lotData =>
      if lotData.formGetType = "history" then
        { created := none, result := Except.error (Problem.badRequest "Auction is closed")
          txs := [], published := [] }
      else
        match env.currentBidResult with
        | Except.error exc =>
          { created := none, result := Except.error (raiseRpcProblem "Auction" exc)
            txs := [], published := [] }
        | Except.ok currentBidAmount =>
          if currentBidAmount ≠ 0 ∧ currentBidAmount > data.bidAmount then
            { created := none
              result := Except.error (Problem.badRequest "Current bid on auction is higher")
              txs := [], published := [] }
          else
            match env.accountResult with
            | Except.error exc =>
              { created := none, result := Except.error (raiseRpcProblem "Account" exc)
                txs := [], published := [] }
            | Except.ok accountInfo =>
              if accountInfo.balance < data.bidAmount then
                { created := none
                  result := Except.error (Problem.badRequest "Not enough money")
                  txs := [], published := [] }
              else if storedBidAtLeast env.highestBid data.bidAmount then
                { created := none
                  result := Except.error
                    (Problem.badRequest "Someone made a higher bid for this lot")
                  txs := [], published := [] }
              else if storedBidAtLeast env.previousBid data.bidAmount then
                { created := none
                  result := Except.error (Problem.badRequest "Your previous bid is higher")
                  txs := [], published := [] }
              else
                let bid := mkPlacedBid newId data userUuid lotData now
                match env.txResult with
                | Except.error exc =>
                  { created := some bid
                    result := Except.error (raiseRpcProblem "Account" exc)
                    txs := [], published := [] }
                | Except.ok _ =>
                  let payload := mkPlacedPayload data userUuid bid lotData currentBidAmount
                  match env.publishFail with
                  | some m =>
                    { created := some bid
                      result := Except.error (Problem.unhandled m)
                      txs := [{ userUuid := userUuid, txType := TxType.bidPlacement,
                                amount := data.bidAmount }]
                      published := [] }
                  | none =>
                    { created := some bid
                      result := Except.ok ()
                      txs := [{ userUuid := userUuid, txType := TxType.bidPlacement,
                                amount := data.bidAmount }]
                      published := [("bid.new_bid_placed", payload)] }

/-- Names of the workflow operations that touch an existing bid row (plus the
creation entry point). -/
inductive OpName
  | create
  | onApproval
  | won
  | approve
  | lost
  | decline
  | paid
deriving Repr, DecidableEq

/-- One workflow operation applied to the (single-row) database, labelled by
the operation's name: row creation by the placement workflow, and the six
outcome-workflow route handlers, each under an arbitrary request payload,
collaborator environment and clock.  The database component of the route
result covers both the success path and every compensation revert write. -/
inductive WorkflowStep : OpName → Db → Db → Prop
  | create (newId : Nat) (data : BidIn) (userUuid : String) (lot : LotData) (now : Nat) :
      WorkflowStep OpName.create none (some (mkPlacedBid newId data userUuid lot now))
  | onApproval (db : Db) (arb : Option Int) (now : Nat) :
      WorkflowStep OpName.onApproval db (markBidAsOnApprovalRoute db arb now).db
  | won (db : Db) (arb : Option Int) (env : WonEnv) (now : Nat) :
      WorkflowStep OpName.won db (markBidAsWonRoute db arb env now).db
  | approve (db : Db) (arb : Option Int) (env : WonEnv) (now : Nat) :
      WorkflowStep OpName.approve db (approveBidRoute db arb env now).db
  | lost (db : Db) (arb : Option Int) (env : LostEnv) (now : Nat) :
      WorkflowStep OpName.lost db (markBidAsLostRoute db arb env now).db
  | decline (db : Db) (arb : Option Int) (env : LostEnv) (now : Nat) :
      WorkflowStep OpName.decline db (declineBidRoute db arb env now).db
  | paid (db : Db) (now : Nat) :
      WorkflowStep OpName.paid db (markPaymentAsPaidRoute db now).db

/-- A database state reachable from the empty row by workflow operations. -/
def ReachableDb (db : Db) : Prop :=
  Relation.ReflTransGen (fun a b => ∃ op, WorkflowStep op a b) none db

/-- The §8 invariant: a paid bid is a won bid. -/
def PaidImpliesWon (db : Db) : Prop :=
  ∀ b : Bid, db = some b → b.paymentStatus = PaymentStatus.paid → b.bidStatus = BidStatus.won

/-- The exception message of a publisher-block outcome, when it failed. -/
def PublishOutcome.failMsg : PublishOutcome → Option String
  | PublishOutcome.ok => none
  | PublishOutcome.connectFail m => some m
  | PublishOutcome.firstFail m => some m
  | PublishOutcome.secondFail m => some m

/-- A lot as the tests instantiate it (an open auction with two HD images). -/
def sampleLot : LotData :=
  { formGetType := "auction"
    linkImgHd := ["img_hd_1.jpg", "img_hd_2.jpg"]
    linkImgSmall := ["thumb_1.jpg"]
    title := some "Clean Title Vehicle"
    auctionDate := some "2026-10-14T00:00:00+00:00"
    vin := some "VIN123" }

/-- A waiting-for-result bid, as the tests instantiate `DummyBid`. -/
def sampleBid : Bid :=
  { id := 1
    lotId := 9001
    auction := Auctions.copart
    userUuid := "user-123"
    bidAmount := 10000
    bidStatus := BidStatus.waitingAuctionResult
    paymentStatus := PaymentStatus.notRequired
    accountBlocked := false
    isBuyNow := false
    auctionResultBid := none
    title := some "Some vehicle"
    auctionDate := some "2026-10-01T12:00:00+00:00"
    vin := some "VINCODE123"
    images := some "first.jpg,second.jpg"
    updatedAt := 0 }

/-- The bid `sampleBid` after losing. -/
def sampleLostBid : Bid :=
  { sampleBid with bidStatus := BidStatus.lost, auctionResultBid := some 9500 }

/-- The bid `sampleBid` after winning. -/
def sampleWonBid : Bid :=
  { sampleBid with
    bidStatus := BidStatus.won
    paymentStatus := PaymentStatus.pending
    accountBlocked := true }

/-- Contact info used by the concrete witnesses. -/
def sampleContacts : Contacts :=
  { email := some "user@example.com", phoneNumber := some "+37060000000" }

/-- A fully healthy mark-won environment. -/
def sampleWonEnvOk : WonEnv :=
  { auth := Except.ok sampleContacts, pub := PublishOutcome.ok }

/-- A fully healthy mark-lost environment. -/
def sampleLostEnvOk : LostEnv :=
  { account := Except.ok (), auth := Except.ok sampleContacts, pub := PublishOutcome.ok }

/-- The error detail raised by a publish failure when no refund was involved
(`admin.py`, both `mark_bid_as_won` and the `refund_required = False` branch
of `mark_bid_as_lost`). -/
def plainNotifyFailDetail (m : String) : String :=
  "Failed to send notification: " ++ m

/-- The error detail raised by a publish failure after a processed refund
(`admin.py`, the `refund_required = True` branch of `mark_bid_as_lost`). -/
def refundNotifyFailDetail (m : String) : String :=
  "Failed to send notification after refund was processed: " ++ m

/-- A placement environment for an open lot with pre-bid 4500, a funds
account with balance 20000 that is currently blocked and has no plan, no
competing stored bids, and healthy ledger/publisher — the §4.4 step-4 account
admission situation the snapshot's `bid_on_auction` never checks. -/
def blockedAccountEnv : PlacementEnv :=
  { lotResult := Except.ok [sampleLot]
    currentBidResult := Except.ok 4500
    accountResult := Except.ok { balance := 20000, blocked := true, plan := none }
    highestBid := none
    previousBid := none
    txResult := Except.ok ()
    publishFail := none
    activeBidsCount := 99 }

/-- The environment `blockedAccountEnv` with a balance below the offered amount. -/
def poorAccountEnv : PlacementEnv :=
  { blockedAccountEnv with
    accountResult := Except.ok { balance := 3000, blocked := true, plan := none } }

/-- The placement request used by the concrete placement theorems. -/
def sampleBidIn : BidIn :=
  { lotId := 9001, auction := Auctions.copart, bidAmount := 6000 }

/-- The environment `blockedAccountEnv` with a healthy account: unblocked, an active plan
allowing two concurrent bids, and no active bids. -/
def unblockedAccountEnv : PlacementEnv :=
  { blockedAccountEnv with
    accountResult :=
      Except.ok { balance := 20000, blocked := false, plan := some { maxBidOneTime := 2 } }
    activeBidsCount := 0 }

/-- Characterization of the database row written by `mark_bid_as_won`: it is
untouched, or the bid was present and not yet `WON` and the row holds either
the applied transition or its compensation revert. -/
theorem markBidAsWonRoute_db_cases (db : Db) (arb : Option Int) (env : WonEnv) (now : Nat) :
    (markBidAsWonRoute db arb env now).db = db ∨
    ∃ b, db = some b ∧ b.bidStatus ≠ BidStatus.won ∧
      ((markBidAsWonRoute db arb env now).db = some (markBidAsWonService b arb now) ∨
       (markBidAsWonRoute db arb env now).db =
         some (applySnapshot (markBidAsWonService b arb now) (snapshotOf b) now)) := by
  rcases db with _ | b
  · exact Or.inl rfl
  by_cases h : b.bidStatus = BidStatus.won
  · exact Or.inl (by simp [markBidAsWonRoute, h])
  refine Or.inr ⟨b, rfl, h, ?_⟩
  rcases env with ⟨auth, pub⟩
  rcases auth with e | c
  · exact Or.inl (by simp [markBidAsWonRoute, h])
  rcases pub with _ | m | m | m
  · exact Or.inl (by simp [markBidAsWonRoute, h, runPublishes])
  all_goals
    exact Or.inr (by simp [markBidAsWonRoute, h, runPublishes, revertDb])

/-- Characterization of the database row written by `mark_bid_as_lost`. -/
theorem markBidAsLostRoute_db_cases (db : Db) (arb : Option Int) (env : LostEnv) (now : Nat) :
    (markBidAsLostRoute db arb env now).db = db ∨
    ∃ b, db = some b ∧ b.bidStatus ≠ BidStatus.won ∧
      ((markBidAsLostRoute db arb env now).db = some (markBidAsLostService b arb now) ∨
       (markBidAsLostRoute db arb env now).db =
         some (applySnapshot (markBidAsLostService b arb now) (snapshotOf b) now)) := by
  rcases db with _ | b
  · exact Or.inl rfl
  by_cases h : b.bidStatus = BidStatus.won
  · exact Or.inl (by simp [markBidAsLostRoute, h])
  rcases env with ⟨account, auth, pub⟩
  by_cases hl : b.bidStatus = BidStatus.lost
  · -- no refund required: the row is written only when a result bid is supplied
    rcases arb with _ | v
    · refine Or.inl ?_
      rcases auth with e | c
      · simp [markBidAsLostRoute, h, hl, lostNotifyStage]
      rcases pub with _ | m | m | m <;>
        simp [markBidAsLostRoute, h, hl, lostNotifyStage, runPublishes]
    · refine Or.inr ⟨b, rfl, h, Or.inl ?_⟩
      rcases auth with e | c
      · simp [markBidAsLostRoute, h, hl, lostNotifyStage]
      rcases pub with _ | m | m | m <;>
        simp [markBidAsLostRoute, h, hl, lostNotifyStage, runPublishes]
  · refine Or.inr ⟨b, rfl, h, ?_⟩
    rcases account with e | u
    · exact Or.inr (by simp [markBidAsLostRoute, h, hl, revertDb])
    rcases auth with e | c
    · exact Or.inl (by simp [markBidAsLostRoute, h, hl, lostNotifyStage])
    rcases pub with _ | m | m | m <;>
      exact Or.inl (by simp [markBidAsLostRoute, h, hl, lostNotifyStage, runPublishes])

/-- Characterization of the database row written by `approve_bid`. -/
theorem approveBidRoute_db_cases (db : Db) (arb : Option Int) (env : WonEnv) (now : Nat) :
    (approveBidRoute db arb env now).db = db ∨
    ∃ b, db = some b ∧ b.bidStatus ≠ BidStatus.won ∧
      ((approveBidRoute db arb env now).db = some (markBidAsWonService b arb now) ∨
       (approveBidRoute db arb env now).db =
         some (applySnapshot (markBidAsWonService b arb now) (snapshotOf b) now)) := by
  rcases db with _ | b
  · exact Or.inl rfl
  by_cases h : b.bidStatus = BidStatus.onApproval
  · have hdeleg : approveBidRoute (some b) arb env now = markBidAsWonRoute (some b) arb env now := by
      simp [approveBidRoute, h]
    rw [hdeleg]
    exact markBidAsWonRoute_db_cases (some b) arb env now
  · exact Or.inl (by simp [approveBidRoute, h])

/-- Characterization of the database row written by `decline_bid`. -/
theorem declineBidRoute_db_cases (db : Db) (arb : Option Int) (env : LostEnv) (now : Nat) :
    (declineBidRoute db arb env now).db = db ∨
    ∃ b, db = some b ∧ b.bidStatus ≠ BidStatus.won ∧
      ((declineBidRoute db arb env now).db = some (markBidAsLostService b arb now) ∨
       (declineBidRoute db arb env now).db =
         some (applySnapshot (markBidAsLostService b arb now) (snapshotOf b) now)) := by
  rcases db with _ | b
  · exact Or.inl rfl
  by_cases h : b.bidStatus = BidStatus.onApproval
  · have hdeleg : declineBidRoute (some b) arb env now = markBidAsLostRoute (some b) arb env now := by
      simp [declineBidRoute, h]
    rw [hdeleg]
    exact markBidAsLostRoute_db_cases (some b) arb env now
  · exact Or.inl (by simp [declineBidRoute, h])

/-- Characterization of the database row written by `mark_bid_as_on_approval`. -/
theorem markBidAsOnApprovalRoute_db_cases (db : Db) (arb : Option Int) (now : Nat) :
    (markBidAsOnApprovalRoute db arb now).db = db ∨
    ∃ b, db = some b ∧ b.bidStatus ≠ BidStatus.won ∧ b.bidStatus ≠ BidStatus.lost ∧
      (markBidAsOnApprovalRoute db arb now).db = some (markBidAsOnApprovalService b arb now) := by
  rcases db with _ | b
  · exact Or.inl rfl
  by_cases h : b.bidStatus = BidStatus.won ∨ b.bidStatus = BidStatus.lost ∨
      b.bidStatus = BidStatus.onApproval
  · exact Or.inl (by simp [markBidAsOnApprovalRoute, h])
  · push_neg at h
    exact Or.inr ⟨b, rfl, h.1, h.2.1,
      by simp [markBidAsOnApprovalRoute, h.1, h.2.1, h.2.2]⟩

/-- Characterization of the database row written by `mark_payment_as_paid`. -/
theorem markPaymentAsPaidRoute_db_cases (db : Db) (now : Nat) :
    (markPaymentAsPaidRoute db now).db = db ∨
    ∃ b, db = some b ∧ b.bidStatus = BidStatus.won ∧ b.paymentStatus ≠ PaymentStatus.paid ∧
      (markPaymentAsPaidRoute db now).db = some (markPaymentAsPaidService b now) := by
  rcases db with _ | b
  · exact Or.inl rfl
  by_cases h : b.bidStatus = BidStatus.won
  · by_cases hp : b.paymentStatus = PaymentStatus.paid
    · exact Or.inl (by simp [markPaymentAsPaidRoute, h, hp])
    · exact Or.inr ⟨b, rfl, h, hp, by simp [markPaymentAsPaidRoute, h, hp]⟩
  · exact Or.inl (by simp [markPaymentAsPaidRoute, h])

/-- A `markWon` transition can only show `PAID` if the bid already was `PAID`. -/
theorem markBidAsWonService_paid (b : Bid) (arb : Option Int) (now : Nat)
    (h : (markBidAsWonService b arb now).paymentStatus = PaymentStatus.paid) :
    b.paymentStatus = PaymentStatus.paid := by
  by_cases hnr : b.paymentStatus = PaymentStatus.notRequired
  · simp [markBidAsWonService, hnr] at h
  · simpa [markBidAsWonService, hnr] using h

/-- Every workflow operation preserves the paid-implies-won invariant. -/
theorem workflowStep_preserves_inv (op : OpName) (db db' : Db)
    (hstep : WorkflowStep op db db') (hinv : PaidImpliesWon db) : PaidImpliesWon db' := by
  cases hstep with
  | create newId data userUuid lot now =>
      intro b' hb' hp
      injection hb' with h
      subst h
      simp [mkPlacedBid] at hp
  | onApproval db arb now =>
      rcases markBidAsOnApprovalRoute_db_cases db arb now with hc | ⟨b, hdb, hw, _, hc⟩
      · rw [hc]; exact hinv
      · intro b' hb' hp
        rw [hc] at hb'
        injection hb' with h
        subst h
        have hbp : b.paymentStatus = PaymentStatus.paid := by
          simpa [markBidAsOnApprovalService] using hp
        exact absurd (hinv b hdb hbp) hw
  | won db arb env now =>
      rcases markBidAsWonRoute_db_cases db arb env now with hc | ⟨b, hdb, hw, hcc⟩
      · rw [hc]; exact hinv
      · intro b' hb' hp
        rcases hcc with hc | hc <;> rw [hc] at hb' <;> (injection hb' with h; subst h)
        · simp [markBidAsWonService]
        · have hbp : b.paymentStatus = PaymentStatus.paid := by
            simpa [applySnapshot, snapshotOf] using hp
          simpa [applySnapshot, snapshotOf] using hinv b hdb hbp
  | approve db arb env now =>
      rcases approveBidRoute_db_cases db arb env now with hc | ⟨b, hdb, hw, hcc⟩
      · rw [hc]; exact hinv
      · intro b' hb' hp
        rcases hcc with hc | hc <;> rw [hc] at hb' <;> (injection hb' with h; subst h)
        · simp [markBidAsWonService]
        · have hbp : b.paymentStatus = PaymentStatus.paid := by
            simpa [applySnapshot, snapshotOf] using hp
          simpa [applySnapshot, snapshotOf] using hinv b hdb hbp
  | lost db arb env now =>
      rcases markBidAsLostRoute_db_cases db arb env now with hc | ⟨b, hdb, hw, hcc⟩
      · rw [hc]; exact hinv
      · intro b' hb' hp
        rcases hcc with hc | hc <;> rw [hc] at hb' <;> (injection hb' with h; subst h)
        · have hbp : b.paymentStatus = PaymentStatus.paid := by
            simpa [markBidAsLostService] using hp
          exact absurd (hinv b hdb hbp) hw
        · have hbp : b.paymentStatus = PaymentStatus.paid := by
            simpa [applySnapshot, snapshotOf] using hp
          simpa [applySnapshot, snapshotOf] using hinv b hdb hbp
  | decline db arb env now =>
      rcases declineBidRoute_db_cases db arb env now with hc | ⟨b, hdb, hw, hcc⟩
      · rw [hc]; exact hinv
      · intro b' hb' hp
        rcases hcc with hc | hc <;> rw [hc] at hb' <;> (injection hb' with h; subst h)
        · have hbp : b.paymentStatus = PaymentStatus.paid := by
            simpa [markBidAsLostService] using hp
          exact absurd (hinv b hdb hbp) hw
        · have hbp : b.paymentStatus = PaymentStatus.paid := by
            simpa [applySnapshot, snapshotOf] using hp
          simpa [applySnapshot, snapshotOf] using hinv b hdb hbp
  | paid db now =>
      rcases markPaymentAsPaidRoute_db_cases db now with hc | ⟨b, hdb, hw, _, hc⟩
      · rw [hc]; exact hinv
      · intro b' hb' hp
        rw [hc] at hb'
        injection hb' with h
        subst h
        simpa [markPaymentAsPaidService] using hw

/-- The invariant holds in every reachable database state. -/
theorem reachable_paid_implies_won (db : Db) (h : ReachableDb db) : PaidImpliesWon db := by
  induction h with
  | refl => intro b hb hp; cases hb
  | tail _ hstep ih =>
      rcases hstep with ⟨op, hs⟩
      exact workflowStep_preserves_inv op _ _ hs ih

/-- No workflow operation other than mark-payment-as-paid turns a non-PAID bid
into a PAID one. -/
theorem workflowStep_paid_only_op (op : OpName) (db db' : Db) (b b' : Bid)
    (hstep : WorkflowStep op db db') (hdb : db = some b) (hdb' : db' = some b')
    (hnp : b.paymentStatus ≠ PaymentStatus.paid)
    (hp : b'.paymentStatus = PaymentStatus.paid) : op = OpName.paid := by
  cases hstep with
  | create newId data userUuid lot now => cases hdb
  | onApproval db arb now =>
      exfalso
      rcases markBidAsOnApprovalRoute_db_cases db arb now with hc | ⟨b0, hdb0, _, _, hc⟩
      · rw [hc, hdb] at hdb'
        injection hdb' with h
        subst h
        exact hnp hp
      · obtain rfl : b0 = b := by rw [hdb0] at hdb; exact Option.some.inj hdb
        rw [hc] at hdb'
        injection hdb' with h
        subst h
        exact hnp (by simpa [markBidAsOnApprovalService] using hp)
  | won db arb env now =>
      exfalso
      rcases markBidAsWonRoute_db_cases db arb env now with hc | ⟨b0, hdb0, _, hcc⟩
      · rw [hc, hdb] at hdb'
        injection hdb' with h
        subst h
        exact hnp hp
      · obtain rfl : b0 = b := by rw [hdb0] at hdb; exact Option.some.inj hdb
        rcases hcc with hc | hc <;> rw [hc] at hdb' <;> (injection hdb' with h; subst h)
        · exact hnp (markBidAsWonService_paid _ arb now hp)
        · exact hnp (by simpa [applySnapshot, snapshotOf] using hp)
  | approve db arb env now =>
      exfalso
      rcases approveBidRoute_db_cases db arb env now with hc | ⟨b0, hdb0, _, hcc⟩
      · rw [hc, hdb] at hdb'
        injection hdb' with h
        subst h
        exact hnp hp
      · obtain rfl : b0 = b := by rw [hdb0] at hdb; exact Option.some.inj hdb
        rcases hcc with hc | hc <;> rw [hc] at hdb' <;> (injection hdb' with h; subst h)
        · exact hnp (markBidAsWonService_paid _ arb now hp)
        · exact hnp (by simpa [applySnapshot, snapshotOf] using hp)
  | lost db arb env now =>
      exfalso
      rcases markBidAsLostRoute_db_cases db arb env now with hc | ⟨b0, hdb0, _, hcc⟩
      · rw [hc, hdb] at hdb'
        injection hdb' with h
        subst h
        exact hnp hp
      · obtain rfl : b0 = b := by rw [hdb0] at hdb; exact Option.some.inj hdb
        rcases hcc with hc | hc <;> rw [hc] at hdb' <;> (injection hdb' with h; subst h)
        · exact hnp (by simpa [markBidAsLostService] using hp)
        · exact hnp (by simpa [applySnapshot, snapshotOf] using hp)
  | decline db arb env now =>
      exfalso
      rcases declineBidRoute_db_cases db arb env now with hc | ⟨b0, hdb0, _, hcc⟩
      · rw [hc, hdb] at hdb'
        injection hdb' with h
        subst h
        exact hnp hp
      · obtain rfl : b0 = b := by rw [hdb0] at hdb; exact Option.some.inj hdb
        rcases hcc with hc | hc <;> rw [hc] at hdb' <;> (injection hdb' with h; subst h)
        · exact hnp (by simpa [markBidAsLostService] using hp)
        · exact hnp (by simpa [applySnapshot, snapshotOf] using hp)
  | paid db now => rfl

/-- When mark-payment-as-paid newly marks a bid PAID, the bid was WON before
and stays WON after. -/
theorem paid_step_requires_won (db db' : Db) (b b' : Bid)
    (hstep : WorkflowStep OpName.paid db db') (hdb : db = some b) (hdb' : db' = some b')
    (hnp : b.paymentStatus ≠ PaymentStatus.paid)
    (hp : b'.paymentStatus = PaymentStatus.paid) :
    b.bidStatus = BidStatus.won ∧ b'.bidStatus = BidStatus.won := by
  cases hstep with
  | paid db now =>
      rcases markPaymentAsPaidRoute_db_cases db now with hc | ⟨b0, hdb0, hw, _, hc⟩
      · rw [hc, hdb] at hdb'
        injection hdb' with h
        subst h
        exact absurd hp hnp
      · obtain rfl : b0 = b := by rw [hdb0] at hdb; exact Option.some.inj hdb
        rw [hc] at hdb'
        injection hdb' with h
        subst h
        exact ⟨hw, by simpa [markPaymentAsPaidService] using hw⟩

/-- The refund-aware publish-failure detail never coincides with the plain
one, whatever the two exception messages are. -/
theorem refundDetail_ne_plainDetail (m m' : String) :
    refundNotifyFailDetail m ≠ plainNotifyFailDetail m' := by
  intro h
  simp only [refundNotifyFailDetail, plainNotifyFailDetail] at h
  have h2 : ("Failed to send notification after refund was processed: " ++ m).data.take 28 =
            ("Failed to send notification: " ++ m').data.take 28 := by rw [h]
  rw [String.data_append, String.data_append] at h2
  rw [List.take_append_of_le_length (by decide), List.take_append_of_le_length (by decide)] at h2
  exact absurd h2 (by decide)

/-- C1 counterexample: a LOST bid is turned into WON by the mark-won route —
`mark_bid_as_won` rejects only bids already WON, so the LOST terminal value is
not preserved against the other terminal value. -/
theorem c1_counterexample :
    sampleLostBid.bidStatus = BidStatus.lost ∧
    ∃ b' : Bid, (markBidAsWonRoute (some sampleLostBid) none sampleWonEnvOk 7).db = some b' ∧
      b'.bidStatus = BidStatus.won := by
  refine ⟨rfl, markBidAsWonService sampleLostBid none 7, by decide, rfl⟩

/-- C1 (amended): mark-bid-as-lost never turns a WON bid into LOST — it
rejects a WON bid and leaves the row untouched — but mark-bid-as-won requires
only `bidStatus != WON`, so it does turn a LOST bid into WON when the
notification publish succeeds. -/
theorem c1_terminal_statuses_amended :
    (∀ (b : Bid) (arb : Option Int) (env : LostEnv) (now : Nat),
        b.bidStatus = BidStatus.won →
        (markBidAsLostRoute (some b) arb env now).db = some b ∧
        (markBidAsLostRoute (some b) arb env now).result =
          Except.error (Problem.badRequest "Won bids cannot be marked as lost")) ∧
    (∀ (b : Bid) (arb : Option Int) (c : Contacts) (now : Nat),
        b.bidStatus = BidStatus.lost →
        ∃ b', (markBidAsWonRoute (some b) arb
                 { auth := Except.ok c, pub := PublishOutcome.ok } now).db = some b' ∧
          b'.bidStatus = BidStatus.won) := by
  constructor
  · intro b arb env now hw
    constructor <;> simp [markBidAsLostRoute, hw]
  · intro b arb c now hl
    have hw : b.bidStatus ≠ BidStatus.won := by rw [hl]; decide
    exact ⟨markBidAsWonService b arb now,
      by simp [markBidAsWonRoute, hw, runPublishes], rfl⟩

/-- C1 witness: the amended theorem applied to a concrete WON bid (rejected
by mark-lost) and a concrete LOST bid (flipped to WON by mark-won). -/
theorem c1_witness :
    ((markBidAsLostRoute (some sampleWonBid) none sampleLostEnvOk 3).db = some sampleWonBid ∧
     (markBidAsLostRoute (some sampleWonBid) none sampleLostEnvOk 3).result =
       Except.error (Problem.badRequest "Won bids cannot be marked as lost")) ∧
    (∃ b', (markBidAsWonRoute (some sampleLostBid) none
              { auth := Except.ok sampleContacts, pub := PublishOutcome.ok } 3).db = some b' ∧
       b'.bidStatus = BidStatus.won) :=
  ⟨c1_terminal_statuses_amended.1 sampleWonBid none sampleLostEnvOk 3 (by decide),
   c1_terminal_statuses_amended.2 sampleLostBid none sampleContacts 3 (by decide)⟩

/-- C3: for a bid that is not WON, the markWon transition sets
`bidStatus = WON`, turns a NOT_REQUIRED `paymentStatus` into PENDING, sets
`accountBlocked = true`, and stores the `auctionResultBid` when one is
provided. -/
theorem c3_markWon_transition_effects (b : Bid) (arb : Option Int) (now : Nat)
    (hw : b.bidStatus ≠ BidStatus.won) :
    (markBidAsWonService b arb now).bidStatus = BidStatus.won ∧
    (b.paymentStatus = PaymentStatus.notRequired →
      (markBidAsWonService b arb now).paymentStatus = PaymentStatus.pending) ∧
    (markBidAsWonService b arb now).accountBlocked = true ∧
    (∀ v : Int, arb = some v → (markBidAsWonService b arb now).auctionResultBid = some v) := by
  refine ⟨rfl, ?_, rfl, ?_⟩
  · intro h
    simp [markBidAsWonService, h]
  · intro v hv
    subst hv
    simp [markBidAsWonService, overrideResult]

/-- C3 witness: the markWon effects at a concrete waiting bid. -/
theorem c3_witness :
    sampleBid.bidStatus ≠ BidStatus.won ∧
    ((markBidAsWonService sampleBid (some 11000) 3).bidStatus = BidStatus.won ∧
     (sampleBid.paymentStatus = PaymentStatus.notRequired →
       (markBidAsWonService sampleBid (some 11000) 3).paymentStatus = PaymentStatus.pending) ∧
     (markBidAsWonService sampleBid (some 11000) 3).accountBlocked = true ∧
     (∀ v : Int, (some 11000 : Option Int) = some v →
       (markBidAsWonService sampleBid (some 11000) 3).auctionResultBid = some v)) :=
  ⟨by decide, c3_markWon_transition_effects sampleBid (some 11000) 3 (by decide)⟩

/-- C4: for a bid that is not WON, the markLost transition sets
`bidStatus = LOST` and `accountBlocked = false`. -/
theorem c4_markLost_transition_effects (b : Bid) (arb : Option Int) (now : Nat)
    (hw : b.bidStatus ≠ BidStatus.won) :
    (markBidAsLostService b arb now).bidStatus = BidStatus.lost ∧
    (markBidAsLostService b arb now).accountBlocked = false :=
  ⟨rfl, rfl⟩

/-- C4 witness: the markLost effects at a concrete waiting bid. -/
theorem c4_witness :
    sampleBid.bidStatus ≠ BidStatus.won ∧
    ((markBidAsLostService sampleBid (some 8000) 3).bidStatus = BidStatus.lost ∧
     (markBidAsLostService sampleBid (some 8000) 3).accountBlocked = false) :=
  ⟨by decide, c4_markLost_transition_effects sampleBid (some 8000) 3 (by decide)⟩

/-- C5: when the mark-won notification publish fails (connect, first or
second publish), the bid row is reverted to the pre-call snapshot — status,
auction-result bid, payment status and blocked flag all restored — and the
surfaced error is the plain (reverted-kind) notification failure. -/
theorem c5_won_publish_failure_reverts (b : Bid) (arb : Option Int) (c : Contacts)
    (pub : PublishOutcome) (m : String) (now : Nat)
    (hw : b.bidStatus ≠ BidStatus.won) (hf : pub.failMsg = some m) :
    ∃ b', (markBidAsWonRoute (some b) arb { auth := Except.ok c, pub := pub } now).db = some b' ∧
      b'.bidStatus = b.bidStatus ∧
      b'.auctionResultBid = b.auctionResultBid ∧
      b'.paymentStatus = b.paymentStatus ∧
      b'.accountBlocked = b.accountBlocked ∧
      (markBidAsWonRoute (some b) arb { auth := Except.ok c, pub := pub } now).result =
        Except.error (Problem.badRequest (plainNotifyFailDetail m)) := by
  refine ⟨applySnapshot (markBidAsWonService b arb now) (snapshotOf b) now, ?_⟩
  cases pub with
  | ok => simp [PublishOutcome.failMsg] at hf
  | connectFail m0 =>
      obtain rfl : m0 = m := by simpa [PublishOutcome.failMsg] using hf
      exact ⟨by simp [markBidAsWonRoute, hw, runPublishes, revertDb], rfl, rfl, rfl, rfl,
        by simp [markBidAsWonRoute, hw, runPublishes, plainNotifyFailDetail]⟩
  | firstFail m0 =>
      obtain rfl : m0 = m := by simpa [PublishOutcome.failMsg] using hf
      exact ⟨by simp [markBidAsWonRoute, hw, runPublishes, revertDb], rfl, rfl, rfl, rfl,
        by simp [markBidAsWonRoute, hw, runPublishes, plainNotifyFailDetail]⟩
  | secondFail m0 =>
      obtain rfl : m0 = m := by simpa [PublishOutcome.failMsg] using hf
      exact ⟨by simp [markBidAsWonRoute, hw, runPublishes, revertDb], rfl, rfl, rfl, rfl,
        by simp [markBidAsWonRoute, hw, runPublishes, plainNotifyFailDetail]⟩

/-- C5 witness: the revert at a concrete on-approval bid whose first publish
fails. -/
theorem c5_witness :
    ∃ b', (markBidAsWonRoute (some sampleBid) (some 9500)
             { auth := Except.ok sampleContacts, pub := PublishOutcome.firstFail "queue down" } 3).db =
        some b' ∧
      b'.bidStatus = sampleBid.bidStatus ∧
      b'.auctionResultBid = sampleBid.auctionResultBid ∧
      b'.paymentStatus = sampleBid.paymentStatus ∧
      b'.accountBlocked = sampleBid.accountBlocked ∧
      (markBidAsWonRoute (some sampleBid) (some 9500)
         { auth := Except.ok sampleContacts, pub := PublishOutcome.firstFail "queue down" } 3).result =
        Except.error (Problem.badRequest (plainNotifyFailDetail "queue down")) :=
  c5_won_publish_failure_reverts sampleBid (some 9500) sampleContacts
    (PublishOutcome.firstFail "queue down") "queue down" 3 (by decide) rfl

/-- C6: when mark-lost required a refund, the ledger credit succeeded and the
notification publish then fails, the bid stays LOST (the post-transition row
is kept, no revert) and the surfaced error is the partial-kind detail noting
the refund was already processed — never equal to the plain detail used when
no refund was required. -/
theorem c6_lost_publish_failure_after_refund (b : Bid) (arb : Option Int) (c : Contacts)
    (pub : PublishOutcome) (m : String) (now : Nat)
    (hw : b.bidStatus ≠ BidStatus.won) (hl : b.bidStatus ≠ BidStatus.lost)
    (hf : pub.failMsg = some m) :
    (markBidAsLostRoute (some b) arb
       { account := Except.ok (), auth := Except.ok c, pub := pub } now).db =
      some (markBidAsLostService b arb now) ∧
    (markBidAsLostService b arb now).bidStatus = BidStatus.lost ∧
    (markBidAsLostRoute (some b) arb
       { account := Except.ok (), auth := Except.ok c, pub := pub } now).result =
      Except.error (Problem.badRequest (refundNotifyFailDetail m)) ∧
    (∀ m' : String,
      Problem.badRequest (refundNotifyFailDetail m) ≠
        Problem.badRequest (plainNotifyFailDetail m')) := by
  refine ⟨?_, rfl, ?_, ?_⟩
  · cases pub with
    | ok => simp [PublishOutcome.failMsg] at hf
    | connectFail m0 => simp [markBidAsLostRoute, hw, hl, lostNotifyStage, runPublishes]
    | firstFail m0 => simp [markBidAsLostRoute, hw, hl, lostNotifyStage, runPublishes]
    | secondFail m0 => simp [markBidAsLostRoute, hw, hl, lostNotifyStage, runPublishes]
  · cases pub with
    | ok => simp [PublishOutcome.failMsg] at hf
    | connectFail m0 =>
        obtain rfl : m0 = m := by simpa [PublishOutcome.failMsg] using hf
        simp [markBidAsLostRoute, hw, hl, lostNotifyStage, runPublishes, refundNotifyFailDetail]
    | firstFail m0 =>
        obtain rfl : m0 = m := by simpa [PublishOutcome.failMsg] using hf
        simp [markBidAsLostRoute, hw, hl, lostNotifyStage, runPublishes, refundNotifyFailDetail]
    | secondFail m0 =>
        obtain rfl : m0 = m := by simpa [PublishOutcome.failMsg] using hf
        simp [markBidAsLostRoute, hw, hl, lostNotifyStage, runPublishes, refundNotifyFailDetail]
  · intro m' h
    injection h with h
    exact refundDetail_ne_plainDetail m m' h

/-- C6 witness: a concrete waiting bid whose refund succeeds and whose first
publish then fails. -/
theorem c6_witness :
    (markBidAsLostRoute (some sampleBid) (some 6500)
       { account := Except.ok (), auth := Except.ok sampleContacts,
         pub := PublishOutcome.firstFail "connection lost" } 3).db =
      some (markBidAsLostService sampleBid (some 6500) 3) ∧
    (markBidAsLostService sampleBid (some 6500) 3).bidStatus = BidStatus.lost ∧
    (markBidAsLostRoute (some sampleBid) (some 6500)
       { account := Except.ok (), auth := Except.ok sampleContacts,
         pub := PublishOutcome.firstFail "connection lost" } 3).result =
      Except.error (Problem.badRequest (refundNotifyFailDetail "connection lost")) ∧
    (∀ m' : String,
      Problem.badRequest (refundNotifyFailDetail "connection lost") ≠
        Problem.badRequest (plainNotifyFailDetail m')) :=
  c6_lost_publish_failure_after_refund sampleBid (some 6500) sampleContacts
    (PublishOutcome.firstFail "connection lost") "connection lost" 3
    (by decide) (by decide) rfl

/-- C7: two successive mark-lost calls on the same bid issue exactly one
ledger refund: the first call (bid not LOST, not WON) credits `bidAmount`
once; the second call sees a LOST bid, so `refund_required` is false and no
transaction is created, whatever result bid it supplies. -/
theorem c7_mark_lost_twice_single_refund (b : Bid) (arb1 arb2 : Option Int)
    (c1 c2 : Contacts) (now1 now2 : Nat)
    (hw : b.bidStatus ≠ BidStatus.won) (hl : b.bidStatus ≠ BidStatus.lost) :
    (markBidAsLostRoute (some b) arb1
       { account := Except.ok (), auth := Except.ok c1, pub := PublishOutcome.ok } now1).effects.txs =
      [{ userUuid := b.userUuid, txType := TxType.adjustment, amount := b.bidAmount }] ∧
    (markBidAsLostRoute
       (markBidAsLostRoute (some b) arb1
         { account := Except.ok (), auth := Except.ok c1, pub := PublishOutcome.ok } now1).db
       arb2
       { account := Except.ok (), auth := Except.ok c2, pub := PublishOutcome.ok } now2).effects.txs =
      [] ∧
    ((markBidAsLostRoute (some b) arb1
        { account := Except.ok (), auth := Except.ok c1, pub := PublishOutcome.ok } now1).effects.txs ++
     (markBidAsLostRoute
        (markBidAsLostRoute (some b) arb1
          { account := Except.ok (), auth := Except.ok c1, pub := PublishOutcome.ok } now1).db
        arb2
        { account := Except.ok (), auth := Except.ok c2, pub := PublishOutcome.ok } now2).effects.txs).length =
      1 := by
  have hdb1 : (markBidAsLostRoute (some b) arb1
      { account := Except.ok (), auth := Except.ok c1, pub := PublishOutcome.ok } now1).db =
      some (markBidAsLostService b arb1 now1) := by
    simp [markBidAsLostRoute, hw, hl, lostNotifyStage, runPublishes]
  have htx1 : (markBidAsLostRoute (some b) arb1
      { account := Except.ok (), auth := Except.ok c1, pub := PublishOutcome.ok } now1).effects.txs =
      [{ userUuid := b.userUuid, txType := TxType.adjustment, amount := b.bidAmount }] := by
    simp [markBidAsLostRoute, markBidAsLostService, hw, hl, lostNotifyStage, runPublishes]
  have htx2 : (markBidAsLostRoute
      (markBidAsLostRoute (some b) arb1
        { account := Except.ok (), auth := Except.ok c1, pub := PublishOutcome.ok } now1).db
      arb2
      { account := Except.ok (), auth := Except.ok c2, pub := PublishOutcome.ok } now2).effects.txs =
      [] := by
    rw [hdb1]
    cases arb2 <;>
      simp [markBidAsLostRoute, markBidAsLostService, lostNotifyStage, runPublishes]
  refine ⟨htx1, htx2, ?_⟩
  rw [htx1, htx2]
  rfl

/-- C7 witness: the single-refund property at a concrete waiting bid. -/
theorem c7_witness :
    (markBidAsLostRoute (some sampleBid) none
       { account := Except.ok (), auth := Except.ok sampleContacts,
         pub := PublishOutcome.ok } 1).effects.txs =
      [{ userUuid := sampleBid.userUuid, txType := TxType.adjustment,
         amount := sampleBid.bidAmount }] ∧
    (markBidAsLostRoute
       (markBidAsLostRoute (some sampleBid) none
         { account := Except.ok (), auth := Except.ok sampleContacts,
           pub := PublishOutcome.ok } 1).db
       (some 9500)
       { account := Except.ok (), auth := Except.ok sampleContacts,
         pub := PublishOutcome.ok } 2).effects.txs = [] ∧
    ((markBidAsLostRoute (some sampleBid) none
        { account := Except.ok (), auth := Except.ok sampleContacts,
          pub := PublishOutcome.ok } 1).effects.txs ++
     (markBidAsLostRoute
        (markBidAsLostRoute (some sampleBid) none
          { account := Except.ok (), auth := Except.ok sampleContacts,
            pub := PublishOutcome.ok } 1).db
        (some 9500)
        { account := Except.ok (), auth := Except.ok sampleContacts,
          pub := PublishOutcome.ok } 2).effects.txs).length = 1 :=
  c7_mark_lost_twice_single_refund sampleBid none (some 9500) sampleContacts sampleContacts
    1 2 (by decide) (by decide)

/-- C9: mark-won publishes `bid.you_won_bid` twice on one payload object
(destination `email`, then destination `sms`); a failure of the second
publish yields exactly the same reverted row and the same surfaced error as a
failure of the first with the same exception text — even though in the
second-failure case the email-destination message was already delivered — so
the error does not distinguish the partially delivered case. -/
theorem c9_second_publish_failure_indistinguishable (b : Bid) (arb : Option Int)
    (c : Contacts) (m : String) (now : Nat) (hw : b.bidStatus ≠ BidStatus.won) :
    (markBidAsWonRoute (some b) arb
       { auth := Except.ok c, pub := PublishOutcome.ok } now).effects.published =
      [("bid.you_won_bid",
        { buildBidNotificationPayload (markBidAsWonService b arb now) c.email c.phoneNumber with
          destination := some "email" }),
       ("bid.you_won_bid",
        { buildBidNotificationPayload (markBidAsWonService b arb now) c.email c.phoneNumber with
          destination := some "sms" })] ∧
    (markBidAsWonRoute (some b) arb
       { auth := Except.ok c, pub := PublishOutcome.secondFail m } now).db =
      (markBidAsWonRoute (some b) arb
        { auth := Except.ok c, pub := PublishOutcome.firstFail m } now).db ∧
    (markBidAsWonRoute (some b) arb
       { auth := Except.ok c, pub := PublishOutcome.secondFail m } now).result =
      (markBidAsWonRoute (some b) arb
        { auth := Except.ok c, pub := PublishOutcome.firstFail m } now).result ∧
    (markBidAsWonRoute (some b) arb
       { auth := Except.ok c, pub := PublishOutcome.secondFail m } now).effects.published =
      [("bid.you_won_bid",
        { buildBidNotificationPayload (markBidAsWonService b arb now) c.email c.phoneNumber with
          destination := some "email" })] ∧
    (markBidAsWonRoute (some b) arb
       { auth := Except.ok c, pub := PublishOutcome.firstFail m } now).effects.published =
      [] := by
  refine ⟨?_, ?_, ?_, ?_, ?_⟩ <;>
    simp [markBidAsWonRoute, hw, runPublishes]

/-- C9 witness: the double publish and the second-failure behaviour at a
concrete waiting bid. -/
theorem c9_witness :
    (markBidAsWonRoute (some sampleBid) none
       { auth := Except.ok sampleContacts, pub := PublishOutcome.ok } 3).effects.published =
      [("bid.you_won_bid",
        { buildBidNotificationPayload (markBidAsWonService sampleBid none 3)
            sampleContacts.email sampleContacts.phoneNumber with destination := some "email" }),
       ("bid.you_won_bid",
        { buildBidNotificationPayload (markBidAsWonService sampleBid none 3)
            sampleContacts.email sampleContacts.phoneNumber with destination := some "sms" })] ∧
    (markBidAsWonRoute (some sampleBid) none
       { auth := Except.ok sampleContacts, pub := PublishOutcome.secondFail "queue down" } 3).db =
      (markBidAsWonRoute (some sampleBid) none
        { auth := Except.ok sampleContacts, pub := PublishOutcome.firstFail "queue down" } 3).db ∧
    (markBidAsWonRoute (some sampleBid) none
       { auth := Except.ok sampleContacts, pub := PublishOutcome.secondFail "queue down" } 3).result =
      (markBidAsWonRoute (some sampleBid) none
        { auth := Except.ok sampleContacts, pub := PublishOutcome.firstFail "queue down" } 3).result ∧
    (markBidAsWonRoute (some sampleBid) none
       { auth := Except.ok sampleContacts, pub := PublishOutcome.secondFail "queue down" } 3).effects.published =
      [("bid.you_won_bid",
        { buildBidNotificationPayload (markBidAsWonService sampleBid none 3)
            sampleContacts.email sampleContacts.phoneNumber with destination := some "email" })] ∧
    (markBidAsWonRoute (some sampleBid) none
       { auth := Except.ok sampleContacts, pub := PublishOutcome.firstFail "queue down" } 3).effects.published =
      [] :=
  c9_second_publish_failure_indistinguishable sampleBid none sampleContacts "queue down" 3
    (by decide)

/-- C10: mark-lost on an already-LOST bid with no supplied result bid leaves
the database row exactly as it was (the persistence call is skipped, so no
field — `updatedAt` included — changes), performs no ledger transaction, yet
still fetches the user's contacts and publishes the two `bid.you_lost_bid`
messages, whose payload carries no `refunded_amount`. -/
theorem c10_lost_noop_still_notifies (b : Bid) (acct : Except RpcErr Unit) (c : Contacts)
    (now : Nat) (hl : b.bidStatus = BidStatus.lost) :
    (markBidAsLostRoute (some b) none
       { account := acct, auth := Except.ok c, pub := PublishOutcome.ok } now).db = some b ∧
    (markBidAsLostRoute (some b) none
       { account := acct, auth := Except.ok c, pub := PublishOutcome.ok } now).effects.txs = [] ∧
    (markBidAsLostRoute (some b) none
       { account := acct, auth := Except.ok c, pub := PublishOutcome.ok } now).effects.contactFetches =
      1 ∧
    (markBidAsLostRoute (some b) none
       { account := acct, auth := Except.ok c, pub := PublishOutcome.ok } now).effects.published =
      [("bid.you_lost_bid",
        { buildBidNotificationPayload b c.email c.phoneNumber with destination := some "email" }),
       ("bid.you_lost_bid",
        { buildBidNotificationPayload b c.email c.phoneNumber with destination := some "sms" })] ∧
    (buildBidNotificationPayload b c.email c.phoneNumber).refundedAmount = none ∧
    (markBidAsLostRoute (some b) none
       { account := acct, auth := Except.ok c, pub := PublishOutcome.ok } now).result =
      Except.ok b := by
  have hw : b.bidStatus ≠ BidStatus.won := by rw [hl]; decide
  refine ⟨?_, ?_, ?_, ?_, rfl, ?_⟩ <;>
    simp [markBidAsLostRoute, hw, hl, lostNotifyStage, runPublishes]

/-- C10 witness: the no-write notification behaviour at a concrete LOST bid. -/
theorem c10_witness :
    (markBidAsLostRoute (some sampleLostBid) none
       { account := Except.ok (), auth := Except.ok sampleContacts,
         pub := PublishOutcome.ok } 9).db = some sampleLostBid ∧
    (markBidAsLostRoute (some sampleLostBid) none
       { account := Except.ok (), auth := Except.ok sampleContacts,
         pub := PublishOutcome.ok } 9).effects.txs = [] ∧
    (markBidAsLostRoute (some sampleLostBid) none
       { account := Except.ok (), auth := Except.ok sampleContacts,
         pub := PublishOutcome.ok } 9).effects.contactFetches = 1 ∧
    (markBidAsLostRoute (some sampleLostBid) none
       { account := Except.ok (), auth := Except.ok sampleContacts,
         pub := PublishOutcome.ok } 9).effects.published =
      [("bid.you_lost_bid",
        { buildBidNotificationPayload sampleLostBid sampleContacts.email
            sampleContacts.phoneNumber with destination := some "email" }),
       ("bid.you_lost_bid",
        { buildBidNotificationPayload sampleLostBid sampleContacts.email
            sampleContacts.phoneNumber with destination := some "sms" })] ∧
    (buildBidNotificationPayload sampleLostBid sampleContacts.email
       sampleContacts.phoneNumber).refundedAmount = none ∧
    (markBidAsLostRoute (some sampleLostBid) none
       { account := Except.ok (), auth := Except.ok sampleContacts,
         pub := PublishOutcome.ok } 9).result = Except.ok sampleLostBid :=
  c10_lost_noop_still_notifies sampleLostBid (Except.ok ()) sampleContacts 9 (by decide)

/-- C8 (code evaluation): the snapshot's `bid_on_auction` admits a bid from a
blocked, plan-less account whose active-bid count is far above any limit —
creating the record and debiting the ledger, with a result identical to the
healthy-account run — and only the balance check is enforced (a low balance
yields `Not enough money` with no record created).  This contradicts the
spec's step-4 admission checks, which the repository's own tests assert
(`test_bid_on_auction_rejects_when_account_blocked`, `..._requires_plan`,
`..._respects_plan_bid_limit`). -/
theorem c8_account_admission_checks_missing :
    (bidOnAuction sampleBidIn "user-123" blockedAccountEnv 1 0).result = Except.ok () ∧
    (bidOnAuction sampleBidIn "user-123" blockedAccountEnv 1 0).created =
      some (mkPlacedBid 1 sampleBidIn "user-123" sampleLot 0) ∧
    (bidOnAuction sampleBidIn "user-123" blockedAccountEnv 1 0).txs =
      [{ userUuid := "user-123", txType := TxType.bidPlacement, amount := 6000 }] ∧
    bidOnAuction sampleBidIn "user-123" blockedAccountEnv 1 0 =
      bidOnAuction sampleBidIn "user-123" unblockedAccountEnv 1 0 ∧
    (bidOnAuction sampleBidIn "user-123" poorAccountEnv 1 0).result =
      Except.error (Problem.badRequest "Not enough money") ∧
    (bidOnAuction sampleBidIn "user-123" poorAccountEnv 1 0).created = none := by
  refine ⟨by decide, by decide, by decide, rfl, by decide, by decide⟩

/-- C2: on every database state reachable through the workflow operations —
creation, mark on approval, mark won, approve, mark lost, decline, mark paid,
including every compensation revert write those routes perform —
`paymentStatus = PAID` implies `bidStatus = WON`; moreover mark-payment-as-paid
is the only operation that turns a non-PAID bid into a PAID one, and when it
does so the bid was WON before and remains WON. -/
theorem c2_paid_implies_won :
    (∀ db : Db, ReachableDb db → PaidImpliesWon db) ∧
    (∀ (op : OpName) (db db' : Db) (b b' : Bid),
        WorkflowStep op db db' → db = some b → db' = some b' →
        b.paymentStatus ≠ PaymentStatus.paid → b'.paymentStatus = PaymentStatus.paid →
        op = OpName.paid) ∧
    (∀ (db db' : Db) (b b' : Bid),
        WorkflowStep OpName.paid db db' → db = some b → db' = some b' →
        b.paymentStatus ≠ PaymentStatus.paid → b'.paymentStatus = PaymentStatus.paid →
        b.bidStatus = BidStatus.won ∧ b'.bidStatus = BidStatus.won) :=
  ⟨reachable_paid_implies_won,
   workflowStep_paid_only_op,
   paid_step_requires_won⟩

/-- C2 witness: the invariant and paid-transition facts at concrete states —
a freshly created bid satisfies paid-implies-won, and marking a concrete
pending WON bid paid keeps it WON. -/
theorem c2_witness :
    PaidImpliesWon (some (mkPlacedBid 1 sampleBidIn "user-123" sampleLot 0)) ∧
    (sampleWonBid.bidStatus = BidStatus.won ∧
     (markPaymentAsPaidService sampleWonBid 5).bidStatus = BidStatus.won) :=
  ⟨c2_paid_implies_won.1 (some (mkPlacedBid 1 sampleBidIn "user-123" sampleLot 0))
     (Relation.ReflTransGen.single
       ⟨OpName.create, WorkflowStep.create 1 sampleBidIn "user-123" sampleLot 0⟩),
   c2_paid_implies_won.2.2 (some sampleWonBid)
     (markPaymentAsPaidRoute (some sampleWonBid) 5).db sampleWonBid
     (markPaymentAsPaidService sampleWonBid 5)
     (WorkflowStep.paid (some sampleWonBid) 5) rfl (by decide) (by decide) (by decide)⟩
